import Mathlib

/-!
Verification of the menu / command-dispatch core of the `notch` note-taking
application (`src/src-tauri/src/main.rs`).

The source is a Tauri `main.rs` with two relevant pieces:

* `create_menu(handle)` builds the fixed native menu from an inline static
  declaration, using the tauri constructors `MenuItem::with_id`,
  `PredefinedMenuItem::*`, `Submenu::with_items` and `Menu::with_items`.
  Each constructor returns `Result<_, tauri::Error>`; in tauri these errors
  arise only from platform interop (and malformed accelerator syntax), never
  from the item data itself — in particular no constructor inspects other
  items, so no uniqueness validation of ids or accelerators happens anywhere.
  The embedding mirrors the `Result` signatures with `Except TauriError`,
  whose error value is never produced by the data-level model.

* the `on_menu_event` closure dispatches a menu event: it first does
  `app.get_webview_window("main").unwrap()` — a panic when no window labeled
  "main" exists — and then matches the event id against twelve string
  literals, calling `window.eval("window.__NOTCH__...")` for each, with an
  empty fallthrough arm.  The embedding returns `Except Panic (List Action)`:
  `Except.error` models the `unwrap` panic, and the action list records, in
  order, every observable action the handler body performs.  The `Action`
  type also has a `log` constructor so that "the handler logs" is a statable
  property; the source body contains no logging call, so no branch of the
  embedding ever produces it.
-/

namespace Notch

/-- A webview window as far as this core observes it: tauri resolves windows
by their string label (`get_webview_window("main")`). -/
structure WebviewWindow where
  label : String
deriving DecidableEq, Repr

/-- The app handle, reduced to what the two modelled functions use of it:
the collection of webview windows (for `get_webview_window`).  `create_menu`
also receives the handle but only threads it into the tauri constructors,
which use it for platform interop, not for the menu data. -/
structure AppHandle where
  windows : List WebviewWindow
deriving DecidableEq, Repr

/-- `Manager::get_webview_window(label)`: the window with that label, if any. -/
def AppHandle.get_webview_window (app : AppHandle) (label : String) : Option WebviewWindow :=
  app.windows.find? (fun w => w.label == label)

/-- The panic raised by `Option::unwrap()` on `None`
(`app.get_webview_window("main").unwrap()` in the event handler). -/
inductive Panic
  | unwrapNone
deriving DecidableEq, Repr

/-- An observable action of the `on_menu_event` handler body.
`eval target js` is `target.eval(js)` — delivery of a JavaScript call to a
webview window.  `log` is a diagnostic log line; it is representable here so
that claims about logging are statable, but the source body contains no
logging call and the embedding never produces it. -/
inductive Action
  | eval (target : WebviewWindow) (js : String)
  | log (message : String)
deriving DecidableEq, Repr

/-- The `match event.id().as_ref()` body of the `on_menu_event` closure
(main.rs lines 30–68): the `window.eval` calls the matching arm performs on
the unwrapped window, with the empty `_ => {}` fallthrough. -/
def eval_calls (window : WebviewWindow) (event_id : String) : List Action :=
  match event_id with
  | "new_note" => [Action.eval window ("window.__NOTCH__.newNote()")]
  | "new_notebook" => [Action.eval window ("window.__NOTCH__.newNotebook()")]
  | "import" => [Action.eval window ("window.__NOTCH__.importLibrary()")]
  | "export" => [Action.eval window ("window.__NOTCH__.exportNote()")]
  | "export_library" => [Action.eval window ("window.__NOTCH__.exportLibrary()")]
  | "toggle_sidebar" => [Action.eval window ("window.__NOTCH__.toggleSidebar()")]
  | "single_pane" => [Action.eval window ("window.__NOTCH__.setLayoutMode(\x27single\x27)")]
  | "double_pane" => [Action.eval window ("window.__NOTCH__.setLayoutMode(\x27double\x27)")]
  | "triple_pane" => [Action.eval window ("window.__NOTCH__.setLayoutMode(\x27triple\x27)")]
  | "editor_only" => [Action.eval window ("window.__NOTCH__.setEditorViewMode(\x27editor\x27)")]
  | "preview_only" => [Action.eval window ("window.__NOTCH__.setEditorViewMode(\x27preview\x27)")]
  | "split_view" => [Action.eval window ("window.__NOTCH__.setEditorViewMode(\x27split\x27)")]
  | _ => []

/-- The `on_menu_event` closure of `main` (main.rs lines 28–69).
`Except.error` is the `unwrap()` panic on a missing "main" window; on
success the list holds the `window.eval` calls of the matching arm (the
source ignores `eval`'s own result via `let _ =`). -/
def on_menu_event (app : AppHandle) (event_id : String) : Except Panic (List Action) :=
  match app.get_webview_window ("main") with
  | none => Except.error Panic.unwrapNone
  | some window => Except.ok (eval_calls window event_id)

/-- The kinds of `PredefinedMenuItem` the source uses (including
`separator`, which tauri also exposes as a predefined item). -/
inductive PredefKind
  | about | separator | services | hide | hide_others | show_all | quit
  | close_window | undo | redo | cut | copy | paste | select_all
  | minimize | maximize | fullscreen
deriving DecidableEq, Repr

/-- A menu entry: either an application item created by `MenuItem::with_id`
(carrying exactly one command id, a label, an enabled flag and an optional
accelerator) or a `PredefinedMenuItem` (system semantics; no command id,
optional override text). -/
inductive MenuNode
  | item (id : String) (label : String) (enabled : Bool) (accelerator : Option String)
  | predefined (kind : PredefKind) (text : Option String)
deriving DecidableEq, Repr

/-- A `Submenu`: label, enabled flag, ordered entries. -/
structure Submenu where
  text : String
  enabled : Bool
  items : List MenuNode
deriving DecidableEq, Repr

/-- A `Menu` as the source uses it: the ordered list of top-level submenus. -/
abbrev Menu := List Submenu

/-- `tauri::Error`.  In tauri, menu-constructor errors come from platform
interop or malformed accelerator syntax only; they never depend on the other
items already in a menu, so the data-level model never produces one. -/
inductive TauriError
  | platform
deriving DecidableEq, Repr

/-- `MenuItem::with_id(handle, id, label, enabled, accelerator)`.  It records
the item; it performs no uniqueness check against other items. -/
def MenuItem.with_id (_handle : AppHandle) (id : String) (label : String)
    (enabled : Bool) (accelerator : Option String) : Except TauriError MenuNode :=
  Except.ok (MenuNode.item id label enabled accelerator)

/-- `PredefinedMenuItem::about(handle, text, metadata)` (metadata is `None`
at the only call site and is not modelled). -/
def PredefinedMenuItem.about (_handle : AppHandle) (text : Option String) :
    Except TauriError MenuNode :=
  Except.ok (MenuNode.predefined PredefKind.about text)

/-- `PredefinedMenuItem::separator(handle)`. -/
def PredefinedMenuItem.separator (_handle : AppHandle) : Except TauriError MenuNode :=
  Except.ok (MenuNode.predefined PredefKind.separator none)

/-- The remaining `PredefinedMenuItem::<kind>(handle, text)` constructors,
which all have the same shape. -/
def PredefinedMenuItem.mk (kind : PredefKind) (_handle : AppHandle)
    (text : Option String) : Except TauriError MenuNode :=
  Except.ok (MenuNode.predefined kind text)

/-- `Submenu::with_items(handle, text, enabled, items)`: records the submenu
with every given item in order; no uniqueness validation. -/
def Submenu.with_items (_handle : AppHandle) (text : String) (enabled : Bool)
    (items : List MenuNode) : Except TauriError Submenu :=
  Except.ok (Submenu.mk text enabled items)

/-- `Menu::with_items(handle, items)`: the menu of the given submenus. -/
def Menu.with_items (_handle : AppHandle) (items : List Submenu) :
    Except TauriError Menu :=
  Except.ok items

/-- `create_menu` (main.rs lines 74–180): builds the fixed application menu
from the inline static declaration, propagating constructor errors with `?`. -/
def create_menu (handle : AppHandle) : Except TauriError Menu := do
  let app_menu ← Submenu.with_items handle ("Notch") true [
    (← PredefinedMenuItem.about handle (some ("About Notch"))),
    (← PredefinedMenuItem.separator handle),
    (← PredefinedMenuItem.mk PredefKind.services handle none),
    (← PredefinedMenuItem.separator handle),
    (← PredefinedMenuItem.mk PredefKind.hide handle none),
    (← PredefinedMenuItem.mk PredefKind.hide_others handle none),
    (← PredefinedMenuItem.mk PredefKind.show_all handle none),
    (← PredefinedMenuItem.separator handle),
    (← PredefinedMenuItem.mk PredefKind.quit handle none)]
  let file_menu ← Submenu.with_items handle ("File") true [
    (← MenuItem.with_id handle ("new_note") ("New Note") true (some ("CmdOrCtrl+N"))),
    (← MenuItem.with_id handle ("new_notebook") ("New Notebook") true (some ("CmdOrCtrl+Shift+N"))),
    (← PredefinedMenuItem.separator handle),
    (← MenuItem.with_id handle ("import") ("Import Quiver Library...") true (some ("CmdOrCtrl+Shift+I"))),
    (← MenuItem.with_id handle ("export") ("Export Note...") true (some ("CmdOrCtrl+Shift+E"))),
    (← MenuItem.with_id handle ("export_library") ("Export Library...") true none),
    (← PredefinedMenuItem.separator handle),
    (← PredefinedMenuItem.mk PredefKind.close_window handle none)]
  let edit_menu ← Submenu.with_items handle ("Edit") true [
    (← PredefinedMenuItem.mk PredefKind.undo handle none),
    (← PredefinedMenuItem.mk PredefKind.redo handle none),
    (← PredefinedMenuItem.separator handle),
    (← PredefinedMenuItem.mk PredefKind.cut handle none),
    (← PredefinedMenuItem.mk PredefKind.copy handle none),
    (← PredefinedMenuItem.mk PredefKind.paste handle none),
    (← PredefinedMenuItem.mk PredefKind.select_all handle none)]
  let view_menu ← Submenu.with_items handle ("View") true [
    (← MenuItem.with_id handle ("toggle_sidebar") ("Toggle Sidebar") true (some ("CmdOrCtrl+0"))),
    (← PredefinedMenuItem.separator handle),
    (← MenuItem.with_id handle ("single_pane") ("Single Pane") true (some ("CmdOrCtrl+1"))),
    (← MenuItem.with_id handle ("double_pane") ("Two Panes") true (some ("CmdOrCtrl+2"))),
    (← MenuItem.with_id handle ("triple_pane") ("Three Panes") true (some ("CmdOrCtrl+3"))),
    (← PredefinedMenuItem.separator handle),
    (← MenuItem.with_id handle ("editor_only") ("Editor Only") true (some ("CmdOrCtrl+4"))),
    (← MenuItem.with_id handle ("preview_only") ("Preview Only") true (some ("CmdOrCtrl+5"))),
    (← MenuItem.with_id handle ("split_view") ("Side by Side") true (some ("CmdOrCtrl+6"))),
    (← PredefinedMenuItem.separator handle),
    (← PredefinedMenuItem.mk PredefKind.fullscreen handle none)]
  let window_menu ← Submenu.with_items handle ("Window") true [
    (← PredefinedMenuItem.mk PredefKind.minimize handle none),
    (← PredefinedMenuItem.mk PredefKind.maximize handle none),
    (← PredefinedMenuItem.separator handle),
    (← PredefinedMenuItem.mk PredefKind.close_window handle none)]
  let help_menu ← Submenu.with_items handle ("Help") true [
    (← MenuItem.with_id handle ("documentation") ("Documentation") true none)]
  Menu.with_items handle [app_menu, file_menu, edit_menu, view_menu, window_menu, help_menu]

/-! ### Spec-side vocabulary

The spec (sections 4.2, 6 and 8) describes the dispatcher through a closed
set of named outbound signals and a fixed `CommandId → signal` mapping
table.  The definitions below state that vocabulary so that the dispatcher
embedding can be compared against it; `Signal.jsCall` is the refinement map
connecting each spec signal to the JavaScript entry point the source
invokes for it. -/

/-- Spec section 6: layout modes `{single, double, triple}`. -/
inductive LayoutMode
  | single | double | triple
deriving DecidableEq, Repr

/-- Spec section 6: editor view modes `{editor, preview, split}`. -/
inductive EditorViewMode
  | editor | preview | split
deriving DecidableEq, Repr

/-- Spec section 6: the closed set of outbound signals. -/
inductive Signal
  | newNote
  | newNotebook
  | importLibrary
  | exportNote
  | exportLibrary
  | toggleSidebar
  | setLayoutMode (mode : LayoutMode)
  | setEditorViewMode (mode : EditorViewMode)
deriving DecidableEq, Repr

/-- The JavaScript call over which the source delivers each spec signal to
the view layer (the argument of `window.eval` in the matching handler arm). -/
def Signal.jsCall : Signal → String
  | Signal.newNote => "window.__NOTCH__.newNote()"
  | Signal.newNotebook => "window.__NOTCH__.newNotebook()"
  | Signal.importLibrary => "window.__NOTCH__.importLibrary()"
  | Signal.exportNote => "window.__NOTCH__.exportNote()"
  | Signal.exportLibrary => "window.__NOTCH__.exportLibrary()"
  | Signal.toggleSidebar => "window.__NOTCH__.toggleSidebar()"
  | Signal.setLayoutMode LayoutMode.single => "window.__NOTCH__.setLayoutMode(\x27single\x27)"
  | Signal.setLayoutMode LayoutMode.double => "window.__NOTCH__.setLayoutMode(\x27double\x27)"
  | Signal.setLayoutMode LayoutMode.triple => "window.__NOTCH__.setLayoutMode(\x27triple\x27)"
  | Signal.setEditorViewMode EditorViewMode.editor => "window.__NOTCH__.setEditorViewMode(\x27editor\x27)"
  | Signal.setEditorViewMode EditorViewMode.preview => "window.__NOTCH__.setEditorViewMode(\x27preview\x27)"
  | Signal.setEditorViewMode EditorViewMode.split => "window.__NOTCH__.setEditorViewMode(\x27split\x27)"

/-- Modelled from the spec (sections 4.2 and 8): the fixed mapping table
from `CommandId` to outbound signal. -/
def commandTable : List (String × Signal) := [
  ("new_note", Signal.newNote),
  ("new_notebook", Signal.newNotebook),
  ("import", Signal.importLibrary),
  ("export", Signal.exportNote),
  ("export_library", Signal.exportLibrary),
  ("toggle_sidebar", Signal.toggleSidebar),
  ("single_pane", Signal.setLayoutMode LayoutMode.single),
  ("double_pane", Signal.setLayoutMode LayoutMode.double),
  ("triple_pane", Signal.setLayoutMode LayoutMode.triple),
  ("editor_only", Signal.setEditorViewMode EditorViewMode.editor),
  ("preview_only", Signal.setEditorViewMode EditorViewMode.preview),
  ("split_view", Signal.setEditorViewMode EditorViewMode.split)]

/-! ### Helpers for stating the claims -/

/-- The command ids of Leaf (`MenuItem::with_id`) entries of a node list, in
order; predefined entries contribute none. -/
def nodeIds (items : List MenuNode) : List String :=
  items.filterMap (fun n => match n with
    | MenuNode.item id _ _ _ => some id
    | MenuNode.predefined _ _ => none)

/-- The accelerators of Leaf entries of a node list that have one, in order. -/
def nodeAccels (items : List MenuNode) : List String :=
  items.filterMap (fun n => match n with
    | MenuNode.item _ _ _ accel => accel
    | MenuNode.predefined _ _ => none)

/-- All Leaf command ids of a menu, in submenu order. -/
def Menu.leafIds (m : Menu) : List String :=
  (m.map (fun s => nodeIds s.items)).flatten

/-- All Leaf accelerators of a menu (those that exist), in submenu order. -/
def Menu.leafAccels (m : Menu) : List String :=
  (m.map (fun s => nodeAccels s.items)).flatten

/-- A menu entry projected to the shape claims about topology talk about:
which command a Leaf carries, or which predefined action an entry delegates. -/
inductive EntryView
  | leaf (id : String)
  | predef (kind : PredefKind)
deriving DecidableEq, Repr

/-- Projection of a node to its `EntryView`. -/
def MenuNode.view : MenuNode → EntryView
  | MenuNode.item id _ _ _ => EntryView.leaf id
  | MenuNode.predefined kind _ => EntryView.predef kind

/-- The menu the application actually builds (the handle does not influence
the data, see `c6_build_deterministic`). -/
def builtMenu : Menu :=
  (create_menu (AppHandle.mk [])).toOption.getD []

/-- A window labeled "main", for concrete instantiations. -/
def mainWindow : WebviewWindow := WebviewWindow.mk ("main")

/-- An app whose only window is labeled "main". -/
def appMain : AppHandle := AppHandle.mk [mainWindow]

/-- Dispatching a sequence of activations: the handler applied to each in
order (the handler keeps no state between invocations). -/
def dispatchRun (app : AppHandle) (ids : List String) : List (Except Panic (List Action)) :=
  ids.map (on_menu_event app)

/-- A declaration with two Leaf nodes sharing a command id and sharing an
accelerator, built with exactly the constructors `create_menu` uses. -/
def dup_menu_build : Except TauriError Menu := do
  let sub ← Submenu.with_items (AppHandle.mk []) ("Dup") true [
    (← MenuItem.with_id (AppHandle.mk []) ("dup") ("A") true (some ("CmdOrCtrl+N"))),
    (← MenuItem.with_id (AppHandle.mk []) ("dup") ("B") true (some ("CmdOrCtrl+N")))]
  Menu.with_items (AppHandle.mk []) [sub]

/-! ### Shared lemmas -/

/-- The build result does not depend on the handle: every constructor only
threads the handle into platform interop. -/
theorem create_menu_ok (h : AppHandle) : create_menu h = Except.ok builtMenu := rfl

/-- Claim C6: building the menu twice from the same static declaration
yields structurally identical trees — the build is a pure function of the
declaration alone, so any two builds (even with different handles) agree on
submenu order, entry order, labels, command ids and accelerators. -/
theorem c6_build_deterministic (h1 h2 : AppHandle) : create_menu h1 = create_menu h2 := rfl

/-- Claim C7 (as it holds of the built tree): the build succeeds, each Leaf
contributes exactly one command id and predefined entries none (`nodeIds`
collects exactly one id per `MenuNode.item` and none otherwise), the 13
command ids are pairwise distinct across the whole tree, and the Leaf
accelerators that exist are pairwise distinct as well. -/
theorem c7_menu_invariants (h : AppHandle) :
    create_menu h = Except.ok builtMenu ∧
    Menu.leafIds builtMenu = [("new_note"), ("new_notebook"), ("import"), ("export"),
      ("export_library"), ("toggle_sidebar"), ("single_pane"), ("double_pane"),
      ("triple_pane"), ("editor_only"), ("preview_only"), ("split_view"),
      ("documentation")] ∧
    (Menu.leafIds builtMenu).Nodup ∧
    (Menu.leafAccels builtMenu).Nodup :=
  ⟨rfl, by decide, by decide, by decide⟩

/-- Claim C9: the built tree is exactly six submenus, in order
Notch / File / Edit / View / Window / Help, whose entries (projected to
leaf-command-id or predefined-kind) appear in declaration order as listed. -/
theorem c9_menu_topology (h : AppHandle) :
    create_menu h = Except.ok builtMenu ∧
    builtMenu.map Submenu.text =
      [("Notch"), ("File"), ("Edit"), ("View"), ("Window"), ("Help")] ∧
    builtMenu.map (fun s => s.items.map MenuNode.view) = [
      [EntryView.predef PredefKind.about, EntryView.predef PredefKind.separator,
       EntryView.predef PredefKind.services, EntryView.predef PredefKind.separator,
       EntryView.predef PredefKind.hide, EntryView.predef PredefKind.hide_others,
       EntryView.predef PredefKind.show_all, EntryView.predef PredefKind.separator,
       EntryView.predef PredefKind.quit],
      [EntryView.leaf ("new_note"), EntryView.leaf ("new_notebook"),
       EntryView.predef PredefKind.separator, EntryView.leaf ("import"),
       EntryView.leaf ("export"), EntryView.leaf ("export_library"),
       EntryView.predef PredefKind.separator, EntryView.predef PredefKind.close_window],
      [EntryView.predef PredefKind.undo, EntryView.predef PredefKind.redo,
       EntryView.predef PredefKind.separator, EntryView.predef PredefKind.cut,
       EntryView.predef PredefKind.copy, EntryView.predef PredefKind.paste,
       EntryView.predef PredefKind.select_all],
      [EntryView.leaf ("toggle_sidebar"), EntryView.predef PredefKind.separator,
       EntryView.leaf ("single_pane"), EntryView.leaf ("double_pane"),
       EntryView.leaf ("triple_pane"), EntryView.predef PredefKind.separator,
       EntryView.leaf ("editor_only"), EntryView.leaf ("preview_only"),
       EntryView.leaf ("split_view"), EntryView.predef PredefKind.separator,
       EntryView.predef PredefKind.fullscreen],
      [EntryView.predef PredefKind.minimize, EntryView.predef PredefKind.maximize,
       EntryView.predef PredefKind.separator, EntryView.predef PredefKind.close_window],
      [EntryView.leaf ("documentation")]] :=
  ⟨rfl, by decide, by decide⟩

/-- Claim C3, counterexample: a declaration in which two Leaf nodes share
the command id "dup" and share the accelerator "CmdOrCtrl+N" builds
successfully with both nodes retained in order — construction does not
fail, refuting the claim that a duplicate id or accelerator makes the
build fail. -/
theorem c3_counterexample :
    dup_menu_build = Except.ok [Submenu.mk ("Dup") true [
      MenuNode.item ("dup") ("A") true (some ("CmdOrCtrl+N")),
      MenuNode.item ("dup") ("B") true (some ("CmdOrCtrl+N"))]] ∧
    ¬ (Menu.leafIds [Submenu.mk ("Dup") true [
      MenuNode.item ("dup") ("A") true (some ("CmdOrCtrl+N")),
      MenuNode.item ("dup") ("B") true (some ("CmdOrCtrl+N"))]]).Nodup ∧
    ¬ (Menu.leafAccels [Submenu.mk ("Dup") true [
      MenuNode.item ("dup") ("A") true (some ("CmdOrCtrl+N")),
      MenuNode.item ("dup") ("B") true (some ("CmdOrCtrl+N"))]]).Nodup :=
  ⟨rfl, by decide, by decide⟩

/-- Claim C3, amended: menu construction performs no uniqueness validation
at all — even when the declared items contain duplicate Leaf command ids or
duplicate accelerators, `Submenu::with_items` and `Menu::with_items`
succeed and retain every node in declaration order (nothing is dropped and
nothing fails). -/
theorem c3_no_uniqueness_check (h : AppHandle) (text : String) (enabled : Bool)
    (items : List MenuNode)
    (_hdup : ¬ (nodeIds items).Nodup ∨ ¬ (nodeAccels items).Nodup) :
    Submenu.with_items h text enabled items = Except.ok (Submenu.mk text enabled items) ∧
    ∀ subs : List Submenu, Menu.with_items h subs = Except.ok subs :=
  ⟨rfl, fun _ => rfl⟩

/-- Witness for `c3_no_uniqueness_check` at a concrete duplicate declaration. -/
theorem c3_no_uniqueness_check_witness :
    (¬ (nodeIds [MenuNode.item ("dup") ("A") true (some ("CmdOrCtrl+N")),
        MenuNode.item ("dup") ("B") true (some ("CmdOrCtrl+N"))]).Nodup ∨
      ¬ (nodeAccels [MenuNode.item ("dup") ("A") true (some ("CmdOrCtrl+N")),
        MenuNode.item ("dup") ("B") true (some ("CmdOrCtrl+N"))]).Nodup) ∧
    Submenu.with_items (AppHandle.mk []) ("Dup") true
      [MenuNode.item ("dup") ("A") true (some ("CmdOrCtrl+N")),
       MenuNode.item ("dup") ("B") true (some ("CmdOrCtrl+N"))] =
      Except.ok (Submenu.mk ("Dup") true
        [MenuNode.item ("dup") ("A") true (some ("CmdOrCtrl+N")),
         MenuNode.item ("dup") ("B") true (some ("CmdOrCtrl+N"))]) :=
  ⟨Or.inl (by decide),
    (c3_no_uniqueness_check (AppHandle.mk []) ("Dup") true
      [MenuNode.item ("dup") ("A") true (some ("CmdOrCtrl+N")),
       MenuNode.item ("dup") ("B") true (some ("CmdOrCtrl+N"))]
      (Or.inl (by decide))).1⟩

/-- Claim C1, counterexample: with no window labeled "main", activating
"export" does not complete with zero signals and no error — the handler's
`unwrap()` panics, so the run is not a silent drop. -/
theorem c1_counterexample :
    ¬ (on_menu_event (AppHandle.mk []) ("export") = Except.ok []) := by
  intro hcontra
  exact Except.noConfusion hcontra

/-- Claim C1, amended: for every command id, an activation arriving when no
window labeled "main" exists panics (the handler unwraps a `None` window
handle before dispatching).  No outbound signal is emitted, but the
invocation is not silently dropped: the handler crashes instead. -/
theorem c1_no_main_window_panics (app : AppHandle) (id : String)
    (hnone : app.get_webview_window ("main") = none) :
    on_menu_event app id = Except.error Panic.unwrapNone := by
  simp [on_menu_event, hnone]

/-- Witness for `c1_no_main_window_panics` on a windowless app and "export". -/
theorem c1_no_main_window_panics_witness :
    (AppHandle.mk []).get_webview_window ("main") = none ∧
    on_menu_event (AppHandle.mk []) ("export") = Except.error Panic.unwrapNone :=
  ⟨rfl, c1_no_main_window_panics (AppHandle.mk []) ("export") rfl⟩

/-- Claim C2: for every command id in the fixed mapping table, activation
with a "main" window present emits exactly one outbound action, and it is
delivery of the mapped signal (from the closed signal set) to that window. -/
theorem c2_mapped_commands_emit_mapped_signal (id : String) (sig : Signal)
    (hmem : (id, sig) ∈ commandTable) (app : AppHandle) (w : WebviewWindow)
    (hw : app.get_webview_window ("main") = some w) :
    on_menu_event app id = Except.ok [Action.eval w (Signal.jsCall sig)] := by
  fin_cases hmem <;> (unfold on_menu_event; rw [hw]; rfl)

/-- Witness for `c2_mapped_commands_emit_mapped_signal` at "toggle_sidebar". -/
theorem c2_mapped_commands_emit_mapped_signal_witness :
    (("toggle_sidebar", Signal.toggleSidebar) ∈ commandTable) ∧
    appMain.get_webview_window ("main") = some mainWindow ∧
    on_menu_event appMain ("toggle_sidebar") =
      Except.ok [Action.eval mainWindow (Signal.jsCall Signal.toggleSidebar)] :=
  ⟨by decide, rfl,
    c2_mapped_commands_emit_mapped_signal ("toggle_sidebar") Signal.toggleSidebar
      (by decide) appMain mainWindow rfl⟩

/-- Claim C4, counterexample: for the unmapped id "bogus", the handler does
not log-and-ignore unconditionally — with no "main" window it panics, and
with a "main" window present it performs no action at all (in particular it
emits no `Action.log`), so the event is ignored without being logged. -/
theorem c4_counterexample :
    on_menu_event (AppHandle.mk []) ("bogus") = Except.error Panic.unwrapNone ∧
    on_menu_event appMain ("bogus") = Except.ok [] := by
  exact ⟨rfl, rfl⟩

/-- Claim C4, amended: for every command id absent from the mapping table,
if a window labeled "main" exists the dispatcher ignores the activation —
zero outbound actions, no logging, no error, no crash.  (If no "main"
window exists the handler panics, like every activation; see C1.) -/
theorem c4_unknown_id_ignored (app : AppHandle) (w : WebviewWindow) (id : String)
    (hw : app.get_webview_window ("main") = some w)
    (hid : id ∉ commandTable.map Prod.fst) :
    on_menu_event app id = Except.ok [] := by
  have hcalls : eval_calls w id = [] := by
    unfold eval_calls
    split <;> first
      | rfl
      | (exact absurd (by decide) hid)
  unfold on_menu_event
  rw [hw]
  show Except.ok (eval_calls w id) = Except.ok []
  rw [hcalls]

/-- Witness for `c4_unknown_id_ignored` at the unmapped id "bogus". -/
theorem c4_unknown_id_ignored_witness :
    appMain.get_webview_window ("main") = some mainWindow ∧
    ("bogus") ∉ commandTable.map Prod.fst ∧
    on_menu_event appMain ("bogus") = Except.ok [] :=
  ⟨rfl, by decide,
    c4_unknown_id_ignored appMain mainWindow ("bogus") rfl (by decide)⟩

/-- Claim C5: the dispatcher is stateless between invocations — in a run
over any activation sequence, the outcome at a given position depends only
on that activation's command id (and the app's windows), never on the
surrounding history; and concretely, activating "double_pane" then
"triple_pane" emits `setLayoutMode('double')` then `setLayoutMode('triple')`
with no cumulative effect. -/
theorem c5_dispatcher_stateless :
    (∀ (app : AppHandle) (pre suf : List String) (id : String),
      (dispatchRun app (pre ++ id :: suf))[pre.length]? = some (on_menu_event app id)) ∧
    dispatchRun appMain [("double_pane"), ("triple_pane")] =
      [Except.ok [Action.eval mainWindow ("window.__NOTCH__.setLayoutMode(\x27double\x27)")],
       Except.ok [Action.eval mainWindow ("window.__NOTCH__.setLayoutMode(\x27triple\x27)")]] := by
  constructor
  · intro app pre suf id
    unfold dispatchRun
    rw [List.map_append, List.getElem?_append_right (by simp)]
    simp
  · rfl

/-- Claim C8: activating "documentation" with a "main" window present emits
nothing — the id is an interactive Leaf of the Help submenu of the built
tree but is absent from the mapping table, so the dispatcher's fallthrough
makes it a no-op. -/
theorem c8_documentation_noop (app : AppHandle) (w : WebviewWindow)
    (hw : app.get_webview_window ("main") = some w) :
    on_menu_event app ("documentation") = Except.ok [] ∧
    (∃ s ∈ builtMenu, s.text = ("Help") ∧
      MenuNode.item ("documentation") ("Documentation") true none ∈ s.items) ∧
    ("documentation") ∉ commandTable.map Prod.fst := by
  refine ⟨?_, by decide, by decide⟩
  unfold on_menu_event
  rw [hw]
  rfl

/-- Witness for `c8_documentation_noop` on the one-main-window app. -/
theorem c8_documentation_noop_witness :
    appMain.get_webview_window ("main") = some mainWindow ∧
    on_menu_event appMain ("documentation") = Except.ok [] :=
  ⟨rfl, (c8_documentation_noop appMain mainWindow rfl).1⟩

/-- If a dispatch succeeds and delivered an eval action, its target is the
window `get_webview_window("main")` resolved. -/
theorem eval_target_resolved {app : AppHandle} {id : String} {acts : List Action}
    {t : WebviewWindow} {js : String}
    (h : on_menu_event app id = Except.ok acts) (hm : Action.eval t js ∈ acts) :
    app.get_webview_window ("main") = some t := by
  unfold on_menu_event at h
  cases hfind : app.get_webview_window ("main") with
  | none => rw [hfind] at h; exact absurd h (by simp)
  | some w =>
    rw [hfind] at h
    have hacts : eval_calls w id = acts := Except.ok.inj h
    subst hacts
    unfold eval_calls at hm
    split at hm <;> simp_all [Action.eval.injEq]

/-- Claim C10: every delivered action of a successful dispatch targets the
window resolved by the label "main" — that window is labeled "main", and
the target is identical across all commands and activations on the same
app state. -/
theorem c10_delivery_target_main (app : AppHandle) (id : String)
    (acts : List Action) (h : on_menu_event app id = Except.ok acts)
    (t : WebviewWindow) (js : String) (hm : Action.eval t js ∈ acts) :
    app.get_webview_window ("main") = some t ∧
    t.label = ("main") ∧
    (∀ (id2 : String) (acts2 : List Action) (t2 : WebviewWindow) (js2 : String),
      on_menu_event app id2 = Except.ok acts2 → Action.eval t2 js2 ∈ acts2 → t2 = t) := by
  have hres := eval_target_resolved h hm
  refine ⟨hres, ?_, ?_⟩
  · have hres2 : app.windows.find? (fun w => w.label == ("main")) = some t := hres
    have hp := List.find?_some hres2
    simpa using hp
  · intro id2 acts2 t2 js2 h2 hm2
    have hres2 := eval_target_resolved h2 hm2
    exact Option.some.inj (hres2.symm.trans hres)

/-- Witness for `c10_delivery_target_main` at "new_note" on the
one-main-window app. -/
theorem c10_delivery_target_main_witness :
    on_menu_event appMain ("new_note") =
      Except.ok [Action.eval mainWindow ("window.__NOTCH__.newNote()")] ∧
    appMain.get_webview_window ("main") = some mainWindow ∧
    mainWindow.label = ("main") := by
  have h := c10_delivery_target_main appMain ("new_note")
    [Action.eval mainWindow ("window.__NOTCH__.newNote()")] rfl
    mainWindow ("window.__NOTCH__.newNote()") (by simp)
  exact ⟨rfl, h.1, h.2.1⟩

end Notch
